import Mathlib

/-!
Shallow embedding of the KVMD server control plane
(src/kvmd/apps/kvmd/server.py): the JSON response envelope, the
exposed-operation dispatch wrapper with its authentication gate and
error-status table, the supervised system-task wrapper, the streamer
lifecycle control loop, the MSD chunked upload handler, and the
WebSocket session registry with event broadcast.
-/

namespace Kvmd

/-- Minimal JSON value model, enough for the response bodies and
websocket messages built by the server. -/
inductive Json where
  | null : Json
  | bool : Bool → Json
  | num : Nat → Json
  | str : String → Json
  | obj : List (String × Json) → Json
  | arr : List Json → Json

/-- Top-level keys of a JSON object; empty for non-objects. -/
def Json.topKeys : Json → List String
  | .obj fields => fields.map Prod.fst
  | _ => []

/-- Error kinds corresponding to the exception classes caught by the
dispatch wrapper in server.py, plus a catch-all for exceptions the
wrapper does not catch. -/
inductive ErrKind where
  | atxIsBusy
  | msdIsBusy
  | validator
  | atxOperation
  | msdOperation
  | unauthorized
  | forbidden
  | other : String → ErrKind
deriving DecidableEq

/-- Python class name of each error kind, as produced by
type(err).\x5f\x5fname\x5f\x5f in _json_exception. -/
def ErrKind.className : ErrKind → String
  | .atxIsBusy => "AtxIsBusyError"
  | .msdIsBusy => "MsdIsBusyError"
  | .validator => "ValidatorError"
  | .atxOperation => "AtxOperationError"
  | .msdOperation => "MsdOperationError"
  | .unauthorized => "UnauthorizedError"
  | .forbidden => "ForbiddenError"
  | .other name => name

/-- An exception value: its kind (class) and its message (str(err)). -/
structure PyError where
  kind : ErrKind
  msg : String
deriving DecidableEq

/-- An HTTP response: status code and JSON body. -/
structure Response where
  status : Nat
  body : Json

/-- Embedding of server.py _json: wraps a result dict into the response
envelope, with ok true exactly when the status is 200 and the result
defaulting to an empty object. Keys appear in sorted order as
json.dumps with sort_keys would emit them. -/
def _json (result : Option Json) (status : Nat) : Response :=
  { status := status
    body := Json.obj [("ok", Json.bool (status == 200)),
                      ("result", result.getD (Json.obj []))] }

/-- Embedding of server.py _json_exception: builds the failure body
from the exception class name and message and passes it to _json with
the given status. -/
def _json_exception (err : PyError) (status : Nat) : Response :=
  _json (some (Json.obj [("error", Json.str err.kind.className),
                         ("error_msg", Json.str err.msg)])) status

/-- Status code assigned by the except-chain of the dispatch wrapper in
_exposed, in source order; none for exceptions the chain does not
catch (they propagate to the transport layer). -/
def exposedCatchStatus : ErrKind → Option Nat
  | .atxIsBusy => some 409
  | .msdIsBusy => some 409
  | .validator => some 400
  | .atxOperation => some 400
  | .msdOperation => some 400
  | .unauthorized => some 401
  | .forbidden => some 403
  | .other _ => none

/-- The credential-bearing parts of an incoming request: the
X-KVMD-User and X-KVMD-Passwd headers and the auth_token cookie, each
empty when absent (headers.get and cookies.get default). -/
structure Request where
  userHeader : String
  passwdHeader : String
  tokenCookie : String

/-- External collaborators of the auth gate: the validators (which may
raise ValidatorError) and the AuthManager operations authorize and
check. -/
structure AuthEnv where
  validUser : String → Except PyError String
  validPasswd : String → Except PyError String
  validAuthToken : String → Except PyError String
  authorize : String → String → Bool
  check : String → Option String

/-- Embedding of the authentication gate inside the _exposed wrapper:
header credentials are tried first, then the cookie token; absence of
both raises UnauthorizedError, failed validation of present
credentials raises ForbiddenError. -/
def authGate (env : AuthEnv) (req : Request) : Except PyError Unit :=
  if req.userHeader ≠ "" then
    match env.validUser req.userHeader with
    | .error e => .error e
    | .ok user =>
      match env.validPasswd req.passwdHeader with
      | .error e => .error e
      | .ok passwd =>
        if env.authorize user passwd then .ok ()
        else .error ⟨.forbidden, "Forbidden"⟩
  else if req.tokenCookie ≠ "" then
    match env.validAuthToken req.tokenCookie with
    | .error e => .error e
    | .ok token =>
      match env.check token with
      | some _ => .ok ()
      | none => .error ⟨.forbidden, "Forbidden"⟩
  else
    .error ⟨.unauthorized, "Unauthorized"⟩

/-- A handler body over abstract server state: it may mutate the state
and either return a response or raise an exception. -/
def Handler (St : Type) : Type := St → St × Except PyError Response

/-- Embedding of the _exposed dispatch wrapper: runs the auth gate when
auth_required, then the handler, and maps raised exceptions to JSON
error responses through the except-chain; exceptions the chain does
not catch propagate (Except.error). The state is returned unchanged on
every path that does not run the handler. -/
def _exposed {St : Type} (auth_required : Bool) (env : AuthEnv)
    (handler : Handler St) (req : Request) (st : St) :
    St × Except PyError Response :=
  match (if auth_required then authGate env req else .ok ()) with
  | .error e =>
    match exposedCatchStatus e.kind with
    | some status => (st, .ok (_json_exception e status))
    | none => (st, .error e)
  | .ok () =>
    match handler st with
    | (st2, .ok resp) => (st2, .ok resp)
    | (st2, .error e) =>
      match exposedCatchStatus e.kind with
      | some status => (st2, .ok (_json_exception e status))
      | none => (st2, .error e)

/-! System task supervision (_system_task in server.py). -/

/-- Outcome of awaiting a task body: it returned, raised
asyncio.CancelledError, or raised some other exception. -/
inductive PyExc where
  | cancelledError : PyExc
  | runtimeError : String → PyExc
  | exc : String → String → PyExc
deriving DecidableEq

/-- Fate of the wrapper around a system task: it finishes silently, or
it logs the failure and sends a signal to the own process of the
server. -/
inductive TaskFate where
  | finished : TaskFate
  | killedSelf : Nat → TaskFate
deriving DecidableEq

/-- POSIX SIGTERM signal number, as sent by os.kill in _system_task. -/
def SIGTERM : Nat := 15

/-- Body of the try-block in the _system_task wrapper: awaiting the
method, then unconditionally raising RuntimeError if it returned
normally, since a system task is expected to run forever. -/
def system_task_run (body : Except PyExc Unit) : Except PyExc Unit :=
  match body with
  | .ok () => .error (.runtimeError "Dead system task")
  | .error e => .error e

/-- Embedding of the _system_task wrapper: CancelledError is swallowed,
every other exception (including the RuntimeError raised after a
normal return) is logged and escalated by sending SIGTERM to the own
process of the server. -/
def system_task_wrap (body : Except PyExc Unit) : TaskFate :=
  match system_task_run body with
  | .error .cancelledError => .finished
  | .error _ => .killedSelf SIGTERM
  | .ok _ => .finished

/-! Streamer lifecycle controller (__stream_controller in server.py). -/

/-- Streamer parameters: the keys mutated by /streamer/set_params. -/
structure StreamerParams where
  quality : Nat
  desiredFps : Nat
deriving DecidableEq

/-- Observable state of the external streamer collaborator: whether it
is running (is_running) and its last-applied parameters (get_params). -/
structure StreamerSt where
  running : Bool
  params : StreamerParams
deriving DecidableEq

/-- Action issued by the control loop to the streamer collaborator: a
start with given parameters and no_init_restart flag, or a stop. -/
inductive SAction where
  | start : StreamerParams → Bool → SAction
  | stop : SAction
deriving DecidableEq

/-- Effect of streamer.start on the collaborator: it becomes running
with the given parameters applied. -/
def streamerStart (p : StreamerParams) : StreamerSt :=
  { running := true, params := p }

/-- Effect of streamer.stop on the collaborator: it stops running and
keeps its last-applied parameters. -/
def streamerStop (st : StreamerSt) : StreamerSt :=
  { st with running := false }

/-- State carried across control-loop ticks: the previous connected
count, the armed shutdown deadline, the reset flag set by
/streamer/reset, the desired parameters set by /streamer/set_params,
and the streamer collaborator state. -/
structure LoopSt where
  prev : Nat
  shutdownAt : Nat
  resetStreamer : Bool
  streamerParams : StreamerParams
  streamer : StreamerSt
deriving DecidableEq

/-- Connection-count phase of one tick of __stream_controller: the
three-way elif chain over the previous and current connected counts,
with the current time observed by time.time(). Returns the updated
state and the actions issued to the streamer. -/
def connPhase (shutdownDelay : Nat) (s : LoopSt) (cur now : Nat) :
    LoopSt × List SAction :=
  if s.prev = 0 ∧ cur > 0 then
    if ¬ s.streamer.running then
      ({ s with streamer := streamerStart s.streamerParams },
       [.start s.streamerParams false])
    else (s, [])
  else if s.prev > 0 ∧ cur = 0 then
    ({ s with shutdownAt := now + shutdownDelay }, [])
  else if s.prev = 0 ∧ cur = 0 ∧ now > s.shutdownAt then
    if s.streamer.running then
      ({ s with streamer := streamerStop s.streamer }, [.stop])
    else (s, [])
  else (s, [])

/-- Parameter-drift phase of one tick of __stream_controller: when the
reset flag is set or the desired parameters differ from the
last-applied ones, a running streamer is stopped and restarted with
no_init_restart, and the reset flag is cleared in either case. -/
def driftPhase (s : LoopSt) : LoopSt × List SAction :=
  if s.resetStreamer ∨ s.streamerParams ≠ s.streamer.params then
    if s.streamer.running then
      ({ s with streamer := streamerStart s.streamerParams,
                resetStreamer := false },
       [.stop, .start s.streamerParams true])
    else ({ s with resetStreamer := false }, [])
  else (s, [])

/-- One full tick of the __stream_controller loop: the connection-count
phase, then the drift phase, then prev is set to the current count. -/
def tick (shutdownDelay : Nat) (s : LoopSt) (cur now : Nat) :
    LoopSt × List SAction :=
  let r1 := connPhase shutdownDelay s cur now
  let r2 := driftPhase r1.1
  ({ r2.1 with prev := cur }, r1.2 ++ r2.2)

/-- Execution of the control loop over a list of observations, each a
pair of the connected count and the current time at that tick;
returns the final state and the per-tick action lists. -/
def runTicks (shutdownDelay : Nat) (s : LoopSt) :
    List (Nat × Nat) → LoopSt × List (List SAction)
  | [] => (s, [])
  | (cur, now) :: rest =>
    let r := tick shutdownDelay s cur now
    let rs := runTicks shutdownDelay r.1 rest
    (rs.1, r.2 :: rs.2)

/-- Embedding of the /streamer/reset handler: it sets the reset flag
and returns the empty success envelope. -/
def streamer_reset_handler (s : LoopSt) : LoopSt × Response :=
  ({ s with resetStreamer := true }, _json none 200)

/-! MSD chunked upload pipeline (__msd_write_handler in server.py). -/

/-- One call received by the mass-storage collaborator during an
upload: write_image_info with the image name and done flag, or
write_image_chunk with the chunk size. -/
inductive MsdCall where
  | writeInfo : String → Bool → MsdCall
  | writeChunk : Nat → MsdCall
deriving DecidableEq

/-- Observable state of the mass-storage collaborator: the calls it
has received and its running written-byte count. -/
structure MsdState where
  calls : List MsdCall
  written : Nat
deriving DecidableEq

/-- Modelled from the spec: the mass-storage collaborator (the MSD
plugin, outside src/) accumulates a running written-byte count across
write_image_chunk calls and returns the new total, which the handler
stores in its written variable (section 4.5 of the spec). -/
def write_image_chunk (st : MsdState) (size : Nat) : MsdState × Nat :=
  let total := st.written + size
  ({ calls := st.calls ++ [.writeChunk size], written := total }, total)

/-- Recording of a write_image_info call on the collaborator. -/
def write_image_info (st : MsdState) (name : String) (done : Bool) :
    MsdState :=
  { st with calls := st.calls ++ [.writeInfo name done] }

/-- The read_chunk loop of __msd_write_handler: the data field is a
stream of chunks, each given by its size; the loop stops at the end of
the stream or at an empty chunk, forwarding every chunk and keeping
the last reported total in written. -/
def writeChunks (st : MsdState) (written : Nat) :
    List Nat → MsdState × Nat
  | [] => (st, written)
  | size :: rest =>
    if size = 0 then (st, written)
    else
      let r := write_image_chunk st size
      writeChunks r.1 r.2 rest

/-- Embedding of __msd_write_handler after name validation: an opening
write_image_info with the done flag clear, the chunk loop, a closing
write_image_info with the done flag set, and the success envelope
reporting the image name and the written total. -/
def msd_write_handler (st : MsdState) (imageName : String)
    (chunks : List Nat) : MsdState × Response :=
  let st1 := write_image_info st imageName false
  let r := writeChunks st1 0 chunks
  let st2 := write_image_info r.1 imageName true
  (st2, _json (some (Json.obj
    [("image", Json.obj [("name", Json.str imageName),
                         ("size", Json.num r.2)])])) 200)

/-- Count of finalize calls: write_image_info calls with the done flag
set. -/
def countFinalize (calls : List MsdCall) : Nat :=
  (calls.filter (fun c =>
    match c with
    | .writeInfo _ true => true
    | _ => false)).length

/-! WebSocket session registry and event broadcast. -/

/-- One realtime client socket as the broadcast path observes it: an
identity, the closed flag, whether the request object and its
transport are still present, and whether a send to it fails. -/
structure WsSession where
  id : Nat
  closed : Bool
  hasReq : Bool
  hasTransport : Bool
  sendFails : Bool
deriving DecidableEq

/-- The liveness filter of __broadcast_event: not closed, and both
the request object and its transport still present. -/
def wsAlive (ws : WsSession) : Bool :=
  !ws.closed && ws.hasReq && ws.hasTransport

/-- The five typed events of the _Events enum. -/
inductive Events where
  | infoState
  | hidState
  | atxState
  | msdState
  | streamerState
deriving DecidableEq

/-- String value of each event, as in the _Events enum. -/
def Events.value : Events → String
  | .infoState => "info_state"
  | .hidState => "hid_state"
  | .atxState => "atx_state"
  | .msdState => "msd_state"
  | .streamerState => "streamer_state"

/-- The websocket push message built by __broadcast_event. -/
def eventMessage (ev : Events) (attrs : Json) : Json :=
  Json.obj [("msg_type", Json.str "event"),
            ("msg", Json.obj [("event", Json.str ev.value),
                              ("event_attrs", attrs)])]

/-- Result of one send_str on a socket: the delivered message, or a
send failure. -/
def wsSend (ws : WsSession) (m : Json) : Except String Json :=
  if ws.sendFails then .error "send failed" else .ok m

/-- Check for a failed per-session send result. -/
def sendFailed (r : WsSession × Except String Json) : Bool :=
  match r.2 with
  | .error _ => true
  | .ok _ => false

/-- Semantics of asyncio.gather over the per-session send results:
with return_exceptions set, every result is collected and nothing is
raised; without it, the first exception propagates. -/
def gatherSends (return_exceptions : Bool)
    (results : List (WsSession × Except String Json)) :
    Except String (List (WsSession × Except String Json)) :=
  if return_exceptions then .ok results
  else
    match results.find? sendFailed with
    | some r =>
      match r.2 with
      | .error e => .error e
      | .ok _ => .ok results
    | none => .ok results

/-- Embedding of __broadcast_event: when the socket set is nonempty, a
snapshot of it is filtered by the liveness check and the event message
is sent to each member, gathering the results with return_exceptions
set. -/
def __broadcast_event (sockets : List WsSession) (ev : Events)
    (attrs : Json) :
    Except String (List (WsSession × Except String Json)) :=
  if sockets.isEmpty then .ok []
  else
    gatherSends true
      ((sockets.filter wsAlive).map
        (fun ws => (ws, wsSend ws (eventMessage ev attrs))))

/-- Embedding of __register_socket: the socket is added to the live
set. -/
def __register_socket (sockets : List WsSession) (ws : WsSession) :
    List WsSession :=
  sockets ++ [ws]

/-- Full current state of the five domain collaborators, as gathered
by __ws_handler right after registration. -/
structure DomainStates where
  info : Json
  hid : Json
  atx : Json
  msd : Json
  streamer : Json

/-- The five full-state replay events of __ws_handler, in source
order. -/
def connectEvents (ds : DomainStates) : List (Events × Json) :=
  [(.infoState, ds.info), (.hidState, ds.hid), (.atxState, ds.atx),
   (.msdState, ds.msd), (.streamerState, ds.streamer)]

/-- Connection phase of __ws_handler: the new socket is registered,
then the full state of every domain is replayed through
__broadcast_event over the updated live set. -/
def ws_handler_connect (sockets : List WsSession) (ws : WsSession)
    (ds : DomainStates) :
    List WsSession ×
      List (Except String (List (WsSession × Except String Json))) :=
  let sockets2 := __register_socket sockets ws
  (sockets2, (connectEvents ds).map
    (fun p => __broadcast_event sockets2 p.1 p.2))

/-- A handler body that raises the given exception without touching
the state. -/
def throwingHandler {St : Type} (e : PyError) : Handler St :=
  fun st => (st, .error e)

/-- A handler body that increments a counter state and succeeds, used
to make handler side effects observable. -/
def countingHandler : Handler Nat :=
  fun st => (st + 1, .ok (_json none 200))

/-- An authentication environment whose validators accept every string
unchanged, whose authorize accepts everything and whose check knows
every token. -/
def permissiveEnv : AuthEnv :=
  { validUser := fun s => .ok s
    validPasswd := fun s => .ok s
    validAuthToken := fun s => .ok s
    authorize := fun _ _ => true
    check := fun s => some s }

/-! Theorems. -/

/-- C1: a request to an auth_required operation that carries neither
the username/secret header pair nor an auth-token cookie is answered
with HTTP 401 by the dispatch wrapper, the underlying handler is never
invoked (the result does not depend on the handler), and the server
state is unchanged. -/
theorem exposed_no_credentials_unauthorized {St : Type} (env : AuthEnv)
    (handler : Handler St) (req : Request) (st : St)
    (hu : req.userHeader = "") (ht : req.tokenCookie = "") :
    _exposed true env handler req st =
      (st, .ok (_json_exception ⟨.unauthorized, "Unauthorized"⟩ 401)) ∧
    (_json_exception ⟨.unauthorized, "Unauthorized"⟩ 401).status = 401 := by
  constructor
  · simp [_exposed, authGate, hu, ht, exposedCatchStatus]
  · rfl

/-- Witness for C1 at a concrete request with no credentials, a
counting handler and state 7: the response is the 401 error envelope
and the state is returned unchanged. -/
theorem exposed_no_credentials_unauthorized_witness :
    _exposed true permissiveEnv countingHandler ⟨"", "pw", ""⟩ (7 : Nat) =
      ((7 : Nat),
       .ok (_json_exception ⟨.unauthorized, "Unauthorized"⟩ 401)) ∧
    (_json_exception ⟨.unauthorized, "Unauthorized"⟩ 401).status = 401 :=
  exposed_no_credentials_unauthorized permissiveEnv countingHandler
    ⟨"", "pw", ""⟩ 7 rfl rfl

/-- C2, counterexample: for the failed response built by
_json_exception from a concrete validation error, the fields error and
error_msg do not appear at the top level of the body; the only
top-level keys are ok and result. -/
theorem json_exception_error_not_top_level :
    "error" ∉ (_json_exception ⟨.validator, "bad request"⟩ 400).body.topKeys ∧
    (_json_exception ⟨.validator, "bad request"⟩ 400).body.topKeys =
      ["ok", "result"] := by
  constructor
  · decide
  · rfl

/-- C2, amended: on failure the body is the envelope with ok false and
the error and error_msg fields nested inside the result object, not at
the top level; on success the body is the envelope with ok true and
the result object. -/
theorem json_exception_envelope (err : PyError) (status : Nat)
    (h : status ≠ 200) (result : Json) :
    _json_exception err status =
      { status := status
        body := Json.obj [("ok", Json.bool false),
          ("result", Json.obj
            [("error", Json.str err.kind.className),
             ("error_msg", Json.str err.msg)])] } ∧
    _json (some result) 200 =
      { status := 200
        body := Json.obj [("ok", Json.bool true),
                          ("result", result)] } := by
  constructor
  · simp [_json_exception, _json, h]
  · simp [_json]

/-- Witness for the amended C2 at status 400 with a concrete error and
result. -/
theorem json_exception_envelope_witness :
    _json_exception ⟨.validator, "boom"⟩ 400 =
      { status := 400
        body := Json.obj [("ok", Json.bool false),
          ("result", Json.obj
            [("error", Json.str (ErrKind.validator.className)),
             ("error_msg", Json.str "boom")])] } ∧
    _json (some (Json.obj [])) 200 =
      { status := 200
        body := Json.obj [("ok", Json.bool true),
                          ("result", Json.obj [])] } :=
  json_exception_envelope ⟨.validator, "boom"⟩ 400 (by decide)
    (Json.obj [])

/-- C3: the system-task wrapper finishes without signalling exactly
when the body was cancelled; a normal return and an uncaught exception
are both escalated identically by sending SIGTERM to the own process
of the server. -/
theorem system_task_fail_fast :
    (∀ body : Except PyExc Unit,
      system_task_wrap body = TaskFate.finished ↔
        body = .error .cancelledError) ∧
    system_task_wrap (.ok ()) = TaskFate.killedSelf SIGTERM ∧
    (∀ n m, system_task_wrap (.error (.exc n m)) =
      TaskFate.killedSelf SIGTERM) ∧
    system_task_wrap (.error .cancelledError) = TaskFate.finished ∧
    (∀ n m, system_task_wrap (.ok ()) =
      system_task_wrap (.error (.exc n m))) := by
  refine ⟨?_, rfl, fun n m => rfl, rfl, fun n m => rfl⟩
  intro body
  cases body with
  | error e => cases e <;> simp [system_task_wrap, system_task_run]
  | ok u => cases u; simp [system_task_wrap, system_task_run]

/-- C9: the dispatch wrapper maps exceptions raised by the handler
body to HTTP statuses by the fixed table: ATX/MSD busy errors to 409,
validation and ATX/MSD operation errors to 400, Unauthorized to 401
and Forbidden to 403. -/
theorem exposed_error_status_table {St : Type} (env : AuthEnv)
    (req : Request) (st : St) (m : String) :
    _exposed false env (throwingHandler ⟨.atxIsBusy, m⟩) req st =
      (st, .ok (_json_exception ⟨.atxIsBusy, m⟩ 409)) ∧
    _exposed false env (throwingHandler ⟨.msdIsBusy, m⟩) req st =
      (st, .ok (_json_exception ⟨.msdIsBusy, m⟩ 409)) ∧
    _exposed false env (throwingHandler ⟨.validator, m⟩) req st =
      (st, .ok (_json_exception ⟨.validator, m⟩ 400)) ∧
    _exposed false env (throwingHandler ⟨.atxOperation, m⟩) req st =
      (st, .ok (_json_exception ⟨.atxOperation, m⟩ 400)) ∧
    _exposed false env (throwingHandler ⟨.msdOperation, m⟩) req st =
      (st, .ok (_json_exception ⟨.msdOperation, m⟩ 400)) ∧
    _exposed false env (throwingHandler ⟨.unauthorized, m⟩) req st =
      (st, .ok (_json_exception ⟨.unauthorized, m⟩ 401)) ∧
    _exposed false env (throwingHandler ⟨.forbidden, m⟩) req st =
      (st, .ok (_json_exception ⟨.forbidden, m⟩ 403)) :=
  ⟨rfl, rfl, rfl, rfl, rfl, rfl, rfl⟩

/-- Replacing prev by its own value (here zero) leaves the loop state
unchanged. -/
theorem loopSt_prev_eta (s : LoopSt) (h : s.prev = 0) :
    { s with prev := 0 } = s := by
  cases s
  simp_all

/-- The connection-count phase preserves the absence of parameter
drift: it never touches the reset flag or the desired parameters, and
any start it issues applies the desired parameters. It also leaves
prev and shutdownAt readable for later phases. -/
theorem connPhase_preserves_nodrift (G : Nat) (s : LoopSt)
    (cur now : Nat) (hres : s.resetStreamer = false)
    (hpar : s.streamerParams = s.streamer.params) :
    ((connPhase G s cur now).1).resetStreamer = false ∧
    ((connPhase G s cur now).1).streamerParams =
      ((connPhase G s cur now).1).streamer.params := by
  unfold connPhase
  split_ifs <;> simp_all [streamerStart, streamerStop]

/-- With the reset flag clear and no parameter drift, the drift phase
does nothing. -/
theorem driftPhase_nodrift (s : LoopSt) (hres : s.resetStreamer = false)
    (hpar : s.streamerParams = s.streamer.params) :
    driftPhase s = (s, []) := by
  unfold driftPhase
  rw [if_neg]
  rintro (h | h)
  · simp_all
  · exact h hpar

/-- With the reset flag clear and no parameter drift, a tick is the
connection-count phase followed by the update of prev. -/
theorem tick_nodrift (G : Nat) (s : LoopSt) (cur now : Nat)
    (hres : s.resetStreamer = false)
    (hpar : s.streamerParams = s.streamer.params) :
    tick G s cur now =
      ({ (connPhase G s cur now).1 with prev := cur },
       (connPhase G s cur now).2) := by
  have h := connPhase_preserves_nodrift G s cur now hres hpar
  simp only [tick]
  rw [driftPhase_nodrift _ h.1 h.2]
  simp

/-- C4: with no parameter drift pending, (i) a tick observing the
transition from a positive connected count to zero arms the shutdown
deadline at the current time plus the grace delay and issues no
action; (ii) a tick stops the streamer exactly when the previous and
current counts are both zero, the current time has passed the armed
deadline, and the streamer reports running; (iii) along any run of
ticks that all observe zero connections at times not past the
deadline, the loop state is unchanged and no action is issued, so the
stop can only happen at the first tick past the deadline and a
reconnect tick (count positive) never stops the streamer by (ii). -/
theorem stream_controller_cooldown (G : Nat) (s : LoopSt)
    (cur now : Nat) (hres : s.resetStreamer = false)
    (hpar : s.streamerParams = s.streamer.params) :
    (1 ≤ s.prev → cur = 0 →
      ((tick G s cur now).1.shutdownAt = now + G ∧
       (tick G s cur now).2 = [])) ∧
    (SAction.stop ∈ (tick G s cur now).2 ↔
      (s.prev = 0 ∧ cur = 0 ∧ s.shutdownAt < now ∧
       s.streamer.running = true)) ∧
    (∀ obs : List (Nat × Nat), s.prev = 0 →
      (∀ p ∈ obs, p.1 = 0 ∧ p.2 ≤ s.shutdownAt) →
      ((runTicks G s obs).1 = s ∧
       ∀ acts ∈ (runTicks G s obs).2, acts = [])) := by
  rw [tick_nodrift G s cur now hres hpar]
  refine ⟨?_, ?_, ?_⟩
  · intro hp hc
    unfold connPhase
    have c1 : ¬(s.prev = 0 ∧ cur > 0) := by omega
    have c2 : s.prev > 0 ∧ cur = 0 := by omega
    rw [if_neg c1, if_pos c2]
    exact ⟨rfl, rfl⟩
  · unfold connPhase
    split_ifs with h1 h2 h3 h4 h5 <;> simp_all
    · omega
    · exact fun hp => absurd hp (by omega)
  · intro obs hprev hall
    induction obs with
    | nil => exact ⟨rfl, by intro acts h; cases h⟩
    | cons o rest ih =>
      obtain ⟨c, t⟩ := o
      have hc : c = 0 ∧ t ≤ s.shutdownAt := hall (c, t) (by simp)
      have hstep : tick G s c t = (s, []) := by
        rw [tick_nodrift G s c t hres hpar]
        unfold connPhase
        have c1 : ¬(s.prev = 0 ∧ c > 0) := by omega
        have c2 : ¬(s.prev > 0 ∧ c = 0) := by omega
        have c3 : ¬(s.prev = 0 ∧ c = 0 ∧ t > s.shutdownAt) := by omega
        rw [if_neg c1, if_neg c2, if_neg c3]
        rw [show c = 0 from hc.1, loopSt_prev_eta s hprev]
      have ihr := ih (fun p hp => hall p (by simp [hp]))
      simp only [runTicks, hstep]
      refine ⟨ihr.1, ?_⟩
      intro acts h
      simp only [List.mem_cons] at h
      rcases h with h | h
      · exact h
      · exact ihr.2 acts h

/-- A loop state in cooldown entry position: two connected sessions at
the previous tick, streamer running, no drift pending. -/
def cooldownWitnessSt : LoopSt :=
  { prev := 2, shutdownAt := 0, resetStreamer := false
    streamerParams := { quality := 80, desiredFps := 30 }
    streamer := { running := true
                  params := { quality := 80, desiredFps := 30 } } }

/-- Witness for C4 at the concrete state cooldownWitnessSt with grace
delay 5, current count 0 and current time 10. -/
theorem stream_controller_cooldown_witness :
    (1 ≤ cooldownWitnessSt.prev → (0 : Nat) = 0 →
      ((tick 5 cooldownWitnessSt 0 10).1.shutdownAt = 10 + 5 ∧
       (tick 5 cooldownWitnessSt 0 10).2 = [])) ∧
    (SAction.stop ∈ (tick 5 cooldownWitnessSt 0 10).2 ↔
      (cooldownWitnessSt.prev = 0 ∧ (0 : Nat) = 0 ∧
       cooldownWitnessSt.shutdownAt < 10 ∧
       cooldownWitnessSt.streamer.running = true)) ∧
    (∀ obs : List (Nat × Nat), cooldownWitnessSt.prev = 0 →
      (∀ p ∈ obs, p.1 = 0 ∧ p.2 ≤ cooldownWitnessSt.shutdownAt) →
      ((runTicks 5 cooldownWitnessSt obs).1 = cooldownWitnessSt ∧
       ∀ acts ∈ (runTicks 5 cooldownWitnessSt obs).2, acts = [])) :=
  stream_controller_cooldown 5 cooldownWitnessSt 0 10 rfl rfl

/-- C5: at any tick where the reset flag is set or the desired
parameters differ from the last-applied ones and the streamer is
running at the drift check, the drift phase performs exactly one stop
followed by one start with the desired parameters and the
no_init_restart mark, after which the desired and applied parameters
agree and the streamer is running; when the connected count stays
positive across the tick, the whole tick performs exactly these two
actions. -/
theorem drift_restart (s : LoopSt)
    (hd : s.resetStreamer = true ∨ s.streamerParams ≠ s.streamer.params)
    (hr : s.streamer.running = true) :
    driftPhase s =
      ({ s with streamer := streamerStart s.streamerParams,
                resetStreamer := false },
       [.stop, .start s.streamerParams true]) ∧
    ((driftPhase s).1).streamer.params = s.streamerParams ∧
    ((driftPhase s).1).streamerParams =
      ((driftPhase s).1).streamer.params ∧
    ((driftPhase s).1).streamer.running = true ∧
    (∀ G cur now, s.prev > 0 → cur > 0 →
      tick G s cur now =
        ({ (driftPhase s).1 with prev := cur },
         [.stop, .start s.streamerParams true])) := by
  have h1 : driftPhase s =
      ({ s with streamer := streamerStart s.streamerParams,
                resetStreamer := false },
       [SAction.stop, SAction.start s.streamerParams true]) := by
    unfold driftPhase
    rw [if_pos hd, if_pos hr]
  refine ⟨h1, by rw [h1]; rfl, by rw [h1]; rfl, by rw [h1]; rfl, ?_⟩
  intro G cur now hp hc
  have hconn : connPhase G s cur now = (s, []) := by
    unfold connPhase
    have c1 : ¬(s.prev = 0 ∧ cur > 0) := by omega
    have c2 : ¬(s.prev > 0 ∧ cur = 0) := by omega
    have c3 : ¬(s.prev = 0 ∧ cur = 0 ∧ now > s.shutdownAt) := by omega
    rw [if_neg c1, if_neg c2, if_neg c3]
  simp only [tick, hconn]
  rw [h1]
  simp

/-- A loop state with a pending quality change: desired quality 90,
applied quality 80, streamer running, one client connected. -/
def driftWitnessSt : LoopSt :=
  { prev := 1, shutdownAt := 0, resetStreamer := false
    streamerParams := { quality := 90, desiredFps := 30 }
    streamer := { running := true
                  params := { quality := 80, desiredFps := 30 } } }

/-- Witness for C5 at the concrete state driftWitnessSt. -/
theorem drift_restart_witness :
    driftPhase driftWitnessSt =
      ({ driftWitnessSt with
          streamer := streamerStart driftWitnessSt.streamerParams,
          resetStreamer := false },
       [.stop, .start driftWitnessSt.streamerParams true]) ∧
    ((driftPhase driftWitnessSt).1).streamer.params =
      driftWitnessSt.streamerParams ∧
    ((driftPhase driftWitnessSt).1).streamerParams =
      ((driftPhase driftWitnessSt).1).streamer.params ∧
    ((driftPhase driftWitnessSt).1).streamer.running = true ∧
    (∀ G cur now, driftWitnessSt.prev > 0 → cur > 0 →
      tick G driftWitnessSt cur now =
        ({ (driftPhase driftWitnessSt).1 with prev := cur },
         [.stop, .start driftWitnessSt.streamerParams true])) :=
  drift_restart driftWitnessSt (Or.inr (by decide)) rfl

/-- A loop state with the reset flag set and the streamer not
running. -/
def resetNotRunningSt : LoopSt :=
  { prev := 0, shutdownAt := 5, resetStreamer := true
    streamerParams := { quality := 80, desiredFps := 30 }
    streamer := { running := false
                  params := { quality := 80, desiredFps := 30 } } }

/-- C6, counterexample: at a tick where the streamer is not running,
no restart happens (no action at all is issued), yet the reset flag
does not remain set: it is cleared by the drift check. -/
theorem streamer_reset_cleared_without_restart :
    resetNotRunningSt.resetStreamer = true ∧
    resetNotRunningSt.streamer.running = false ∧
    (tick 5 resetNotRunningSt 0 0).2 = [] ∧
    ((tick 5 resetNotRunningSt 0 0).1).resetStreamer = false := by
  decide

/-- C6, amended: the reset flag, once set by the /streamer/reset
handler, is cleared by the next drift check of the control loop
regardless of whether a restart happens; the stop-and-restart
accompanies the clearing exactly when the streamer is running at the
drift check. -/
theorem streamer_reset_flag_clearing (s : LoopSt)
    (h : s.resetStreamer = true) :
    ((driftPhase s).1).resetStreamer = false ∧
    (driftPhase s).2 =
      (if s.streamer.running then
        [SAction.stop, SAction.start s.streamerParams true]
       else []) ∧
    (∀ s2 : LoopSt,
      ((streamer_reset_handler s2).1).resetStreamer = true) := by
  have hc : (s.resetStreamer = true) ∨
      s.streamerParams ≠ s.streamer.params := Or.inl h
  unfold driftPhase
  rw [if_pos hc]
  by_cases hr : s.streamer.running
  · simp [hr, streamer_reset_handler]
  · simp [hr, streamer_reset_handler]

/-- Witness for the amended C6 at the concrete state
resetNotRunningSt. -/
theorem streamer_reset_flag_clearing_witness :
    ((driftPhase resetNotRunningSt).1).resetStreamer = false ∧
    (driftPhase resetNotRunningSt).2 =
      (if resetNotRunningSt.streamer.running then
        [SAction.stop,
         SAction.start resetNotRunningSt.streamerParams true]
       else []) ∧
    (∀ s2 : LoopSt,
      ((streamer_reset_handler s2).1).resetStreamer = true) :=
  streamer_reset_flag_clearing resetNotRunningSt rfl

/-- C7: an upload whose data field arrives as two chunks of 1024 and
512 bytes produces the success envelope reporting the image name and a
total size of 1536 bytes, and the mass-storage collaborator receives
exactly one finalize call (write_image_info with the done flag set)
over the whole upload; the full call sequence is the opening info
call, the two chunks, and the single finalize. -/
theorem msd_write_two_chunks (name : String) :
    (msd_write_handler ⟨[], 0⟩ name [1024, 512]).2 =
      _json (some (Json.obj
        [("image", Json.obj [("name", Json.str name),
                             ("size", Json.num 1536)])])) 200 ∧
    countFinalize ((msd_write_handler ⟨[], 0⟩ name [1024, 512]).1).calls
      = 1 ∧
    ((msd_write_handler ⟨[], 0⟩ name [1024, 512]).1).calls =
      [.writeInfo name false, .writeChunk 1024, .writeChunk 512,
       .writeInfo name true] :=
  ⟨rfl, rfl, rfl⟩

/-- C8: when one session k of the socket set has a failing send, the
broadcast still returns its collected results rather than raising (the
gather is invoked with return_exceptions set), and every other live
session with a working send receives the event message. -/
theorem broadcast_send_failure (sockets : List WsSession)
    (k : WsSession) (ev : Events) (attrs : Json)
    (hk : k ∈ sockets) (_hkf : k.sendFails = true) :
    __broadcast_event sockets ev attrs =
      .ok ((sockets.filter wsAlive).map
        (fun ws => (ws, wsSend ws (eventMessage ev attrs)))) ∧
    (∀ ws ∈ sockets, ws ≠ k → wsAlive ws = true →
      ws.sendFails = false →
      (ws, Except.ok (eventMessage ev attrs)) ∈
        (sockets.filter wsAlive).map
          (fun ws => (ws, wsSend ws (eventMessage ev attrs)))) := by
  have hne : sockets.isEmpty = false := by
    cases sockets
    · cases hk
    · rfl
  constructor
  · simp [__broadcast_event, gatherSends, hne]
  · intro ws hws hwk halive hnf
    have hmem : ws ∈ sockets.filter wsAlive :=
      List.mem_filter.mpr ⟨hws, halive⟩
    have hout : (ws, wsSend ws (eventMessage ev attrs)) ∈
        (sockets.filter wsAlive).map
          (fun ws => (ws, wsSend ws (eventMessage ev attrs))) :=
      List.mem_map_of_mem _ hmem
    simpa [wsSend, hnf] using hout

/-- A live socket with a working send. -/
def wsA : WsSession :=
  { id := 1, closed := false, hasReq := true, hasTransport := true
    sendFails := false }

/-- A live socket whose send fails. -/
def wsB : WsSession :=
  { id := 2, closed := false, hasReq := true, hasTransport := true
    sendFails := true }

/-- Another live socket with a working send. -/
def wsC : WsSession :=
  { id := 3, closed := false, hasReq := true, hasTransport := true
    sendFails := false }

/-- A newly connecting socket. -/
def wsD : WsSession :=
  { id := 4, closed := false, hasReq := true, hasTransport := true
    sendFails := false }

/-- Witness for C8 over three live sockets of which the second has a
failing send. -/
theorem broadcast_send_failure_witness :
    __broadcast_event [wsA, wsB, wsC] .hidState Json.null =
      .ok (([wsA, wsB, wsC].filter wsAlive).map
        (fun ws => (ws, wsSend ws (eventMessage .hidState Json.null)))) ∧
    (∀ ws ∈ [wsA, wsB, wsC], ws ≠ wsB → wsAlive ws = true →
      ws.sendFails = false →
      (ws, Except.ok (eventMessage .hidState Json.null)) ∈
        ([wsA, wsB, wsC].filter wsAlive).map
          (fun ws => (ws, wsSend ws (eventMessage .hidState Json.null)))) :=
  broadcast_send_failure [wsA, wsB, wsC] wsB .hidState Json.null
    (by decide) rfl

/-- C10: the connection phase of the websocket handler registers the
new socket and replays the full state of the five domains through the
general broadcast path over the updated live set, so every previously
connected live session with a working send receives each of the five
full-state events, not only the newly connected session. -/
theorem ws_connect_full_replay (sockets : List WsSession)
    (ws : WsSession) (ds : DomainStates) :
    (ws_handler_connect sockets ws ds).1 = sockets ++ [ws] ∧
    (ws_handler_connect sockets ws ds).2 =
      (connectEvents ds).map
        (fun p => __broadcast_event (sockets ++ [ws]) p.1 p.2) ∧
    (∀ p ∈ connectEvents ds, ∀ s ∈ sockets,
      wsAlive s = true → s.sendFails = false →
      __broadcast_event (sockets ++ [ws]) p.1 p.2 =
        .ok (((sockets ++ [ws]).filter wsAlive).map
          (fun w => (w, wsSend w (eventMessage p.1 p.2)))) ∧
      (s, Except.ok (eventMessage p.1 p.2)) ∈
        ((sockets ++ [ws]).filter wsAlive).map
          (fun w => (w, wsSend w (eventMessage p.1 p.2)))) := by
  refine ⟨rfl, rfl, ?_⟩
  intro p hp s hs halive hnf
  have hne : (sockets ++ [ws]).isEmpty = false := by
    cases sockets <;> rfl
  constructor
  · simp [__broadcast_event, gatherSends, hne]
  · have hmem : s ∈ (sockets ++ [ws]).filter wsAlive :=
      List.mem_filter.mpr ⟨List.mem_append_left _ hs, halive⟩
    have hout : (s, wsSend s (eventMessage p.1 p.2)) ∈
        ((sockets ++ [ws]).filter wsAlive).map
          (fun w => (w, wsSend w (eventMessage p.1 p.2))) :=
      List.mem_map_of_mem _ hmem
    simpa [wsSend, hnf] using hout

/-- Concrete full-state payloads for the five domains. -/
def nullStates : DomainStates :=
  { info := Json.null, hid := Json.null, atx := Json.null
    msd := Json.null, streamer := Json.null }

/-- Witness for C10: socket wsD connects while wsA and wsC are live,
and wsA (an old session, not the new one) receives the info_state
full-state replay event. -/
theorem ws_connect_full_replay_witness :
    (Events.infoState, Json.null) ∈ connectEvents nullStates ∧
    wsA ∈ [wsA, wsC] ∧ wsAlive wsA = true ∧ wsA.sendFails = false ∧
    (__broadcast_event ([wsA, wsC] ++ [wsD]) Events.infoState Json.null =
      .ok ((([wsA, wsC] ++ [wsD]).filter wsAlive).map
        (fun w => (w, wsSend w (eventMessage Events.infoState Json.null)))) ∧
     (wsA, Except.ok (eventMessage Events.infoState Json.null)) ∈
      (([wsA, wsC] ++ [wsD]).filter wsAlive).map
        (fun w => (w, wsSend w (eventMessage Events.infoState Json.null)))) :=
  ⟨by simp [connectEvents, nullStates], by simp, rfl, rfl,
   (ws_connect_full_replay [wsA, wsC] wsD nullStates).2.2
     (Events.infoState, Json.null) (by simp [connectEvents, nullStates])
     wsA (by simp) rfl rfl⟩

end Kvmd
